import Mathlib

/-!
Verification of the evoblast backend core against its specification.

The development shallowly embeds the Python modules
`app/services/yandex_service.py`, `app/services/chat_service.py`,
`app/services/file_service.py` and `app/database/mongodb.py`.
Text is modelled as `List Char` (Python strings are sequences of code
points, and Python indexing/slicing is by character).  Pure helpers
become Lean functions; the external Yandex backend (similarity search,
completions, vector-store management) is an opaque oracle supplied as a
`Backend` structure, and every outbound backend call is recorded as an
event in a trace so that ordering and call-count properties can be
stated.  MongoDB collections become in-memory lists with the exact
query/update logic of `mongodb.py`.
-/

/-- Python strings, modelled as their sequence of characters. -/
abbrev Str := List Char

/-- The character data of a Lean string literal, used to embed the
program's string constants. -/
def str (s : String) : Str := s.data

/-! ### Python string primitives

The embedding needs `str.lower`, `str.upper`, `str.strip`,
`str.split()`, slicing by characters, and substring membership (`in`).
`lower`/`upper` are modelled on the alphabets the program actually uses
(ASCII and Russian Cyrillic, including Ё/ё). -/

/-- Lower-case one character: ASCII A–Z, Cyrillic А–Я (U+0410–U+042F)
and Ё (U+0401), as Python's `str.lower` acts on these alphabets. -/
def pyLowerChar (c : Char) : Char :=
  if 'A' ≤ c ∧ c ≤ 'Z' then Char.ofNat (c.toNat + 32)
  else if 'А' ≤ c ∧ c ≤ 'Я' then Char.ofNat (c.toNat + 32)
  else if c = 'Ё' then 'ё'
  else c

/-- Upper-case one character: inverse direction of `pyLowerChar`. -/
def pyUpperChar (c : Char) : Char :=
  if 'a' ≤ c ∧ c ≤ 'z' then Char.ofNat (c.toNat - 32)
  else if 'а' ≤ c ∧ c ≤ 'я' then Char.ofNat (c.toNat - 32)
  else if c = 'ё' then 'Ё'
  else c

/-- Python `text.lower()` on the alphabets used by the program. -/
def pyLower (s : Str) : Str := s.map pyLowerChar

/-- Python `text.upper()` on the alphabets used by the program. -/
def pyUpper (s : Str) : Str := s.map pyUpperChar

/-- Python `text.strip()`: drop leading and trailing whitespace. -/
def pyStrip (s : Str) : Str :=
  ((s.dropWhile Char.isWhitespace).reverse.dropWhile Char.isWhitespace).reverse

/-- Python `text.strip(chars)`: drop leading and trailing characters
that belong to `cs`. -/
def pyStripChars (cs : List Char) (s : Str) : Str :=
  ((s.dropWhile (cs.contains ·)).reverse.dropWhile (cs.contains ·)).reverse

/-- Worker for `pyWords`: accumulate the current word (reversed) while
scanning. -/
def wordsAux : Str → Str → List Str
  | acc, [] => if acc.isEmpty then [] else [acc.reverse]
  | acc, c :: rest =>
    if c.isWhitespace then
      if acc.isEmpty then wordsAux [] rest else acc.reverse :: wordsAux [] rest
    else wordsAux (c :: acc) rest

/-- Python `text.split()` with no separator: split on whitespace runs,
producing no empty words. -/
def pyWords (s : Str) : List Str := wordsAux [] s

/-- Substring test (`needle in hay` on Python strings). -/
def pyContains (hay needle : Str) : Bool :=
  match hay with
  | [] => needle.isEmpty
  | c :: rest => needle.isPrefixOf (c :: rest) || pyContains rest needle

/-- Python truthiness of an optional string (`if x:`): present and
non-empty. -/
def pyTruthyOpt (o : Option Str) : Bool :=
  match o with
  | some s => !s.isEmpty
  | none => false

/-! ## `yandex_service.py`: intent classification -/

/-- `GREETINGS` set from `yandex_service.py`. -/
def GREETINGS : List Str :=
  [str "привет", str "здравствуй", str "здравствуйте", str "добрый день",
   str "доброе утро", str "добрый вечер", str "хай", str "hello", str "hi"]

/-- `FAREWELLS` set from `yandex_service.py`. -/
def FAREWELLS : List Str :=
  [str "пока", str "до свидания", str "прощай", str "bye", str "goodbye"]

/-- `THANKS` set from `yandex_service.py`. -/
def THANKS : List Str :=
  [str "спасибо", str "благодарю", str "thanks", str "thank you"]

/-- `_MAX_GREETING_WORDS` from `yandex_service.py`. -/
def MAX_GREETING_WORDS : Nat := 5

/-- `is_greeting` from `yandex_service.py`: lower-case and strip, reject
texts of more than five words, then test exact set membership. -/
def is_greeting (text : Str) : Bool :=
  let text_lower := pyStrip (pyLower text)
  if (pyWords text_lower).length > MAX_GREETING_WORDS then false
  else GREETINGS.contains text_lower

/-- `is_farewell` from `yandex_service.py`. -/
def is_farewell (text : Str) : Bool :=
  let text_lower := pyStrip (pyLower text)
  if (pyWords text_lower).length > MAX_GREETING_WORDS then false
  else FAREWELLS.contains text_lower

/-- `is_thanks` from `yandex_service.py`. -/
def is_thanks (text : Str) : Bool :=
  let text_lower := pyStrip (pyLower text)
  if (pyWords text_lower).length > MAX_GREETING_WORDS then false
  else THANKS.contains text_lower

/-- Canned greeting answer returned by `get_greeting_response`. -/
def GREETING_TEXT : Str :=
  str "Здравствуйте! Я ассистент по базе знаний. Задайте мне вопрос по загруженным документам, и я дам вам развёрнутый структурированный ответ."

/-- Canned farewell answer returned by `get_greeting_response`. -/
def FAREWELL_TEXT : Str := str "До свидания! Буду рад помочь снова."

/-- Canned thanks answer returned by `get_greeting_response`. -/
def THANKS_TEXT : Str :=
  str "Пожалуйста! Если есть ещё вопросы по базе знаний — спрашивайте."

/-- `get_greeting_response` from `yandex_service.py`: the canned social
answer, or `none` when the message is not social. -/
def get_greeting_response (text : Str) : Option Str :=
  if is_greeting text then some GREETING_TEXT
  else if is_farewell text then some FAREWELL_TEXT
  else if is_thanks text then some THANKS_TEXT
  else none

/-- `task_keywords` list from `_is_direct_task` in `yandex_service.py`. -/
def task_keywords : List Str :=
  [str "проверь", str "проверить", str "исправь", str "исправить",
   str "перепиши", str "переписать", str "напиши", str "написать",
   str "отредактируй", str "отредактировать", str "переработай", str "переработать",
   str "сократи", str "сократить", str "дополни", str "дополнить",
   str "переведи", str "перевести", str "улучши", str "улучшить"]

/-- `_is_direct_task` from `yandex_service.py`: an imperative keyword
occurs within the first 100 characters of the lower-cased, stripped
text. -/
def is_direct_task (text : Str) : Bool :=
  let text_lower := pyStrip (pyLower text)
  let start := text_lower.take 100
  task_keywords.any (fun kw => pyContains start kw)

/-! ## `yandex_service.py`: backend interface and RAG pipeline

Every outbound HTTP call of the service is mediated by an opaque
`Backend` oracle.  `HttpResult` models the outcome of one completion
request: a response with an HTTP status and the (already JSON-parsed)
message text, or `exn` for a network/parse error raised by the client
library. -/

deriving instance DecidableEq for Except

/-- Outcome of one HTTP completion request. -/
inductive HttpResult where
  | resp (status : Nat) (text : Str)
  | exn
deriving DecidableEq

/-- One outbound backend call made by the chat pipeline. -/
inductive Event where
  | searchCall (query : Str)
  | relevanceCall (prompt : Str)
  | generateCall (context : Str)
  | namingCall (message : Str)
deriving DecidableEq

/-- The opaque Yandex backend (Knowledge Store Client).  Search errors
are already folded into an empty result list by the caller's
`try/except`; completion calls return an `HttpResult`; vector-store
management calls may raise (`Except`). -/
structure Backend where
  search : Str → List Str
  relevance : Str → HttpResult
  generate : Str → List (Str × Str) → Str → HttpResult
  naming : Str → HttpResult
  create_index : List Str → Except Str Str
  delete_index : Str → Except Str Unit
  upload_yandex : Str → Except Str Str
  delete_yandex : Str → Except Str Unit

/-- Relevant application settings (`app/config.py`): the fixed search
index identifier, empty when not configured. -/
structure Config where
  search_index_id : Str

/-- `_search_index_sync` from `yandex_service.py`: returns `[]` without
calling the backend when no index is configured, otherwise queries the
similarity search and keeps at most `max_results` chunks.  Backend
errors are caught and yield `[]` (folded into the oracle). -/
def search_index (b : Backend) (cfg : Config) (query : Str) (max_results : Nat) :
    List Str × List Event :=
  if cfg.search_index_id.isEmpty then ([], [])
  else ((b.search query).take max_results, [.searchCall query])

/-- The relevance-check prompt of `_check_relevance_sync`, with the
question and the truncated top chunk spliced in. -/
def relevance_prompt (question chunk_head : Str) : Str :=
  str "Оцени, содержит ли текст из базы знаний информацию для ответа на вопрос.\n\nВОПРОС: "
  ++ question
  ++ str "\n\nТЕКСТ ИЗ БАЗЫ:\n"
  ++ chunk_head
  ++ str "\n\nОтветь ОДНИМ словом: ДА или НЕТ"

/-- `_check_relevance_sync` from `yandex_service.py`: `false` on an
empty chunk list; otherwise ask the backend about the single top chunk
truncated to 500 characters.  A 200 response is scanned for the token
ДА; any other status, or a raised error, falls through to the final
`return True` (fail-open). -/
def check_relevance (b : Backend) (question : Str) (chunks : List Str) :
    Bool × List Event :=
  match chunks with
  | [] => (false, [])
  | c0 :: _ =>
    let prompt := relevance_prompt question (c0.take 500)
    let verdict : Bool :=
      match b.relevance prompt with
      | .resp status t =>
        if status = 200 then pyContains (pyUpper (pyStrip t)) (str "ДА") else true
      | .exn => true
    (verdict, [.relevanceCall prompt])

/-- `SYSTEM_PROMPT` from `yandex_service.py` (abbreviated to its opening
line; the claims under verification never inspect its contents, only
that the grounding context is appended to it). -/
def SYSTEM_PROMPT : Str :=
  str "Ты профессиональный ассистент-эксперт. [...] БАЗА ЗНАНИЙ:\n\n"

/-- `_generate_answer_sync` from `yandex_service.py`: appends the
context (or the marker `(пусто)` when it is empty) to the system
prompt, sends system prompt + history + question to the backend, raises
on a non-200 status or client error, and returns the answer text. -/
def generate_answer (b : Backend) (question context : Str) (history : List (Str × Str)) :
    Except Str Str × List Event :=
  let system_text :=
    if !context.isEmpty then SYSTEM_PROMPT ++ context
    else SYSTEM_PROMPT ++ str "(пусто)"
  let r : Except Str Str :=
    match b.generate system_text history question with
    | .resp 200 t => .ok t
    | .resp _ _ => .error (str "API error")
    | .exn => .error (str "network error")
  (r, [.generateCall context])

/-- The separator used to join chunks into the grounding context in
`_rag_pipeline_sync`. -/
def CHUNK_SEP : Str := str "\n\n---\n\n"

/-- Join retrieved chunks into the grounding context
(`"\n\n---\n\n".join(chunks)`). -/
def join_chunks (chunks : List Str) : Str :=
  (chunks.intersperse CHUNK_SEP).flatten

/-- `_rag_pipeline_sync` from `yandex_service.py`: greeting check, then
direct-task check (no retrieval), then similarity search, then
relevance gate, then answer generation; returns the answer and the list
of chunks actually used. -/
def rag_pipeline (b : Backend) (cfg : Config) (question : Str)
    (history : List (Str × Str)) :
    Except Str (Str × List Str) × List Event :=
  match get_greeting_response question with
  | some g => (.ok (g, []), [])
  | none =>
    if is_direct_task question then
      let (r, ev) := generate_answer b question [] history
      (r.map (fun a => (a, [])), ev)
    else
      let (chunks, ev1) := search_index b cfg question 10
      if chunks.isEmpty then
        let (r, ev2) := generate_answer b question [] history
        (r.map (fun a => (a, [])), ev1 ++ ev2)
      else
        let (rel, ev2) := check_relevance b question chunks
        if !rel then
          let (r, ev3) := generate_answer b question [] history
          (r.map (fun a => (a, [])), ev1 ++ ev2 ++ ev3)
        else
          let context := join_chunks chunks
          let (r, ev3) := generate_answer b question context history
          (r.map (fun a => (a, chunks)), ev1 ++ ev2 ++ ev3)

/-- The chat-naming prompt of `_generate_chat_name_sync`, with the user
message spliced in. -/
def naming_prompt (message : Str) : Str :=
  str "Сгенерируй короткое и красивое название для чата на основе сообщения пользователя. [...] Сообщение пользователя: "
  ++ message
  ++ str "\n\nНазвание чата:"

/-- The quote characters stripped from a generated chat name
(`strip('\"\\'«»')`). -/
def NAME_QUOTE_CHARS : List Char := [Char.ofNat 34, Char.ofNat 39, '«', '»']

/-- The final fallback name of `_generate_chat_name_sync`, used when the
naming call raises or returns a non-200 status. -/
def fallback_chat_name (message : Str) : Str :=
  if message.length > 30 then str "Чат: " ++ message.take 30 ++ str "..."
  else str "Чат: " ++ message

/-- `_generate_chat_name_sync` from `yandex_service.py`: ask the backend
for a name; on a 200 response strip whitespace and quotes, and fall back
to a truncation of the message itself when the name is empty or longer
than 100 characters; on any other status or a raised error return the
deterministic `Чат: ...` fallback.  Total: never raises. -/
def generate_chat_name (b : Backend) (message : Str) : Str × List Event :=
  let name :=
    match b.naming (naming_prompt message) with
    | .resp status t =>
      if status = 200 then
        let chat_name := pyStripChars NAME_QUOTE_CHARS (pyStrip t)
        if chat_name.isEmpty || chat_name.length > 100 then
          if message.length > 50 then message.take 50 else message
        else chat_name
      else fallback_chat_name message
    | .exn => fallback_chat_name message
  (name, [.namingCall message])

/-! ## `mongodb.py`: conversation store

The `chat_threads` and `chat_history` collections become lists of
documents.  `meta` dictionaries are projected to the only key the
program ever writes (`chunks_used`). Timestamps are abstract `Nat`
instants supplied by the caller. -/

/-- A `chat_history` document (one message) as written by
`add_message`. -/
structure MsgDoc where
  user_id : Str
  thread_id : Str
  message_id : Nat
  role : Str
  content : Str
  meta_chunks_used : Option Nat
  created_at : Nat
deriving DecidableEq

/-- A `chat_threads` document as written by `create_chat_thread`. -/
structure ThreadDoc where
  user_id : Str
  chat_name : Str
  thread_id : Str
  assistant_id : Str
  vectorstore_id : Str
  created_at : Nat
  updated_at : Nat
deriving DecidableEq

/-- The conversation-store state: the two MongoDB collections. -/
structure ChatDB where
  chat_threads : List ThreadDoc
  chat_history : List MsgDoc
deriving DecidableEq

/-- `update_one`: apply `f` to the first element satisfying `p`. -/
def updateFirst (p : α → Bool) (f : α → α) : List α → List α
  | [] => []
  | x :: xs => if p x then f x :: xs else x :: updateFirst p f xs

/-- `create_chat_thread` from `mongodb.py`: insert a new thread
document; a missing name defaults to a timestamp-derived one. -/
def create_chat_thread (db : ChatDB) (user_id thread_id assistant_id vectorstore_id : Str)
    (chat_name : Option Str) (now : Nat) : ChatDB :=
  let name :=
    match chat_name with
    | some n => if n.isEmpty then str "Чат от " ++ Nat.toDigits 10 now else n
    | none => str "Чат от " ++ Nat.toDigits 10 now
  let doc : ThreadDoc :=
    { user_id := user_id, chat_name := name, thread_id := thread_id,
      assistant_id := assistant_id, vectorstore_id := vectorstore_id,
      created_at := now, updated_at := now }
  { db with chat_threads := db.chat_threads ++ [doc] }

/-- `get_chat_thread` from `mongodb.py`: `find_one` on `thread_id`. -/
def get_chat_thread (db : ChatDB) (thread_id : Str) : Option ThreadDoc :=
  db.chat_threads.find? (fun t => t.thread_id == thread_id)

/-- `update_chat_thread(thread_id, {})` as called from `add_message`:
only the `updated_at` timestamp of the first matching thread changes. -/
def touch_chat_thread (db : ChatDB) (thread_id : Str) (now : Nat) : ChatDB :=
  { db with chat_threads :=
      (updateFirst (fun t => t.thread_id == thread_id)
        (fun t => { t with updated_at := now }) db.chat_threads) }

/-- The `message_id` of the thread's last message, found by
`find_one(..., sort=[("message_id", -1)])`: the maximal `message_id`
among the thread's messages, `none` when the thread has none. -/
def last_message_id (db : ChatDB) (thread_id : Str) : Option Nat :=
  ((db.chat_history.filter (fun m => m.thread_id == thread_id)).map
    (fun m => m.message_id)).max?

/-- `add_message` from `mongodb.py`: assign the next sequence number
(last-known-max + 1, or 1 for the first message), insert the document,
and touch the thread's `updated_at`. -/
def add_message (db : ChatDB) (user_id thread_id role content : Str)
    (meta : Option Nat) (now : Nat) : MsgDoc × ChatDB :=
  let message_id :=
    match last_message_id db thread_id with
    | some m => m + 1
    | none => 1
  let doc : MsgDoc :=
    { user_id := user_id, thread_id := thread_id, message_id := message_id,
      role := role, content := content, meta_chunks_used := meta,
      created_at := now }
  let db1 : ChatDB := { db with chat_history := db.chat_history ++ [doc] }
  (doc, touch_chat_thread db1 thread_id now)

/-- `get_chat_history` from `mongodb.py`: the thread's messages sorted
by `message_id` ascending, capped at 1000 by `to_list(length=1000)`. -/
def get_chat_history (db : ChatDB) (thread_id : Str) : List MsgDoc :=
  ((db.chat_history.filter (fun m => m.thread_id == thread_id)).insertionSort
    (fun a b => a.message_id ≤ b.message_id)).take 1000

/-! ## `chat_service.py`: pipeline orchestrator -/

/-- Python `l[-n:]`: the last `n` elements. -/
def takeLast (l : List α) (n : Nat) : List α := l.drop (l.length - n)

/-- `get_history_for_rag` from `chat_service.py`: the last `limit`
messages of the thread's history as (role, content) pairs. -/
def get_history_for_rag (db : ChatDB) (thread_id : Str) (limit : Nat) :
    List (Str × Str) :=
  (takeLast (get_chat_history db thread_id) limit).map (fun m => (m.role, m.content))

/-- The thread-resolution step at the top of `process_message`: a
supplied identifier is kept only when the thread exists in the store;
a missing or unknown identifier resolves to `none`, which makes the
caller create a fresh thread. -/
def resolve_thread (db : ChatDB) (thread_id? : Option Str) : Option Str :=
  match thread_id? with
  | some tid => if (get_chat_thread db tid).isSome then some tid else none
  | none => none

/-- `process_message` from `chat_service.py`.  `fresh_tid` stands for
the freshly generated `generate_thread_id()` value used when a new
thread is created; `meta` is the caller-supplied message metadata.
Returns the result (answer, thread id, new-chat flag — or the raised
error), the updated store, and the trace of backend calls. -/
def process_message (b : Backend) (cfg : Config) (db : ChatDB)
    (user_id message : Str) (thread_id? : Option Str) (meta : Option Nat)
    (fresh_tid : Str) (now : Nat) :
    Except Str (Str × Str × Bool) × ChatDB × List Event :=
  match resolve_thread db thread_id? with
  | none =>
    let tid := fresh_tid
    let nm := generate_chat_name b message
    let db1 := create_chat_thread db user_id tid (str "local_rag")
      cfg.search_index_id (some nm.1) now
    let db2 := (add_message db1 user_id tid (str "user") message meta now).2
    match rag_pipeline b cfg message [] with
    | (.error e, ev2) => (.error e, db2, nm.2 ++ ev2)
    | (.ok (answer, chunks), ev2) =>
      let db3 := (add_message db2 user_id tid (str "assistant") answer
        (some chunks.length) now).2
      (.ok (answer, tid, true), db3, nm.2 ++ ev2)
  | some tid =>
    let db2 := (add_message db user_id tid (str "user") message meta now).2
    match rag_pipeline b cfg message (get_history_for_rag db tid 20) with
    | (.error e, ev2) => (.error e, db2, ev2)
    | (.ok (answer, chunks), ev2) =>
      let db3 := (add_message db2 user_id tid (str "assistant") answer
        (some chunks.length) now).2
      (.ok (answer, tid, false), db3, ev2)

/-! ## `mongodb.py` + `file_service.py`: document registry and index
lifecycle

The `files` collection and the `settings` record holding the bound
vector-store identifier become `FilesDB`.  The vector-store management
calls of the backend are recorded as `IdxEvent`s. -/

/-- A `files` document as written by `create_file_record`. -/
structure FileDoc where
  file_id : Str
  user_id : Str
  filename : Str
  file_type : Str
  file_size : Nat
  yandex_file_id : Str
  status : Str
deriving DecidableEq

/-- Document-registry state: the `files` collection and the
`settings` record for the bound vector-store identifier (`none` when
never written). -/
structure FilesDB where
  files : List FileDoc
  vector_store_id : Option Str
deriving DecidableEq

/-- One outbound backend/filesystem call made by the file service. -/
inductive IdxEvent where
  | createIndexCall (ids : List Str)
  | deleteIndexCall (id : Str)
  | uploadFileCall (filename : Str)
  | deleteFileCall (id : Str)
  | readFileCall (filename : Str)
  | createRecordCall (filename : Str)
deriving DecidableEq

/-- `get_current_vector_store_id` from `mongodb.py`. -/
def get_current_vector_store_id (db : FilesDB) : Option Str :=
  db.vector_store_id

/-- `set_current_vector_store_id` from `mongodb.py` (upsert). -/
def set_current_vector_store_id (db : FilesDB) (id : Str) : FilesDB :=
  { db with vector_store_id := some id }

/-- `get_all_active_files` from `mongodb.py`: every file whose status is
not `deleted`, capped at 1000 by `to_list(length=1000)`. -/
def get_all_active_files (db : FilesDB) : List FileDoc :=
  (db.files.filter (fun f => f.status != str "deleted")).take 1000

/-- `create_file_record` from `mongodb.py`; the generated UUID `file_id`
is supplied by the caller as `file_id`. -/
def create_file_record (db : FilesDB) (file_id user_id filename file_type : Str)
    (file_size : Nat) (yandex_file_id : Str) (status : Str) : FileDoc × FilesDB :=
  let doc : FileDoc :=
    { file_id := file_id, user_id := user_id, filename := filename,
      file_type := file_type, file_size := file_size,
      yandex_file_id := yandex_file_id, status := status }
  (doc, { db with files := db.files ++ [doc] })

/-- `update_file_status` from `mongodb.py`. -/
def update_file_status (db : FilesDB) (file_id status : Str) : FilesDB :=
  { db with files :=
      (updateFirst (fun f => f.file_id == file_id)
        (fun f => { f with status := status }) db.files) }

/-- `delete_file_record` from `mongodb.py`: fetch the file, mark it
`deleted` (soft delete), and return the original document. -/
def delete_file_record (db : FilesDB) (file_id : Str) : Option FileDoc × FilesDB :=
  match db.files.find? (fun f => f.file_id == file_id) with
  | none => (none, db)
  | some f => (some f, update_file_status db file_id (str "deleted"))

/-- The backing-store identifiers submitted to `create_vector_store` by
`_rebuild_vector_store`: the `yandex_file_id` of every active file that
has a truthy one. -/
def active_yandex_ids (db : FilesDB) : List Str :=
  ((get_all_active_files db).filter (fun f => !f.yandex_file_id.isEmpty)).map
    (fun f => f.yandex_file_id)

/-- `_rebuild_vector_store` from `file_service.py`.  Reads the bound
index id and the active backing ids; with no backing ids it deletes the
old index (when truthy) and clears the binding; otherwise it creates a
brand-new index from all backing ids, binds it, and only then deletes
the previous index (when truthy and different).  `create_vector_store` /
`delete_vector_store` are opaque backend calls that may raise; a raise
propagates, leaving the state reached so far.  Returns the result (new
id or raised error), the call trace, and the updated registry. -/
def rebuild_vector_store (b : Backend) (db : FilesDB) :
    Except Str (Option Str) × List IdxEvent × FilesDB :=
  let old := get_current_vector_store_id db
  let ids := active_yandex_ids db
  if ids.isEmpty then
    if pyTruthyOpt old then
      match b.delete_index (old.getD []) with
      | .error e => (.error e, [.deleteIndexCall (old.getD [])], db)
      | .ok _ => (.ok none, [.deleteIndexCall (old.getD [])],
          set_current_vector_store_id db [])
    else (.ok none, [], set_current_vector_store_id db [])
  else
    match b.create_index ids with
    | .error e => (.error e, [.createIndexCall ids], db)
    | .ok new_id =>
      let db1 := set_current_vector_store_id db new_id
      if pyTruthyOpt old && (old != some new_id) then
        match b.delete_index (old.getD []) with
        | .error e =>
          (.error e, [.createIndexCall ids, .deleteIndexCall (old.getD [])], db1)
        | .ok _ =>
          (.ok (some new_id), [.createIndexCall ids, .deleteIndexCall (old.getD [])], db1)
      else (.ok (some new_id), [.createIndexCall ids], db1)

/-- `ALLOWED_EXTENSIONS` from `file_service.py`. -/
def ALLOWED_EXTENSIONS : List Str :=
  [str "txt", str "pdf", str "doc", str "docx", str "md", str "json",
   str "csv", str "xls", str "xlsx"]

/-- `MAX_FILE_SIZE` from `file_service.py`: 30 MB. -/
def MAX_FILE_SIZE : Nat := 30 * 1024 * 1024

/-- `MAX_FILES_PER_UPLOAD` from `file_service.py`. -/
def MAX_FILES_PER_UPLOAD : Nat := 10

/-- `get_file_extension` from `file_service.py`:
`filename.rsplit('.', 1)[1].lower()` when the name contains a dot,
otherwise the empty string. -/
def get_file_extension (filename : Str) : Str :=
  if filename.contains '.' then
    pyLower ((filename.reverse.takeWhile (fun c => c ≠ '.')).reverse)
  else []

/-- `is_allowed_file` from `file_service.py`. -/
def is_allowed_file (filename : Str) : Bool :=
  ALLOWED_EXTENSIONS.contains (get_file_extension filename)

/-- One file of an upload batch.  Its raw bytes are abstracted by their
size (`len(content)`); `fresh_id` stands for the UUID that
`create_file_record` generates for it. -/
structure UploadFile where
  filename : Str
  size : Nat
  fresh_id : Str
deriving DecidableEq

/-- The per-file loop body of `upload_files`: validate the extension
(before reading), read the content, validate the size, upload to the
backend, create the registry record with status `uploaded`.  Any raise
inside the loop body is caught and reported in the error list for that
file while the rest of the batch continues. -/
def upload_loop (b : Backend) (user_id : Str) :
    FilesDB → List UploadFile → (List FileDoc × List Str) × List IdxEvent × FilesDB
  | db, [] => (([], []), [], db)
  | db, f :: rest =>
    if !is_allowed_file f.filename then
      let ((ups, errs), evs, db') := upload_loop b user_id db rest
      ((ups, (f.filename ++ str ": неподдерживаемый тип") :: errs), evs, db')
    else if f.size > MAX_FILE_SIZE then
      let ((ups, errs), evs, db') := upload_loop b user_id db rest
      ((ups, (f.filename ++ str ": слишком большой (макс. 30MB)") :: errs),
        .readFileCall f.filename :: evs, db')
    else
      match b.upload_yandex f.filename with
      | .error e =>
        let ((ups, errs), evs, db') := upload_loop b user_id db rest
        ((ups, (f.filename ++ str ": " ++ e) :: errs),
          [.readFileCall f.filename, .uploadFileCall f.filename] ++ evs, db')
      | .ok yandex_id =>
        let (doc, db1) := create_file_record db f.fresh_id user_id f.filename
          (get_file_extension f.filename) f.size yandex_id (str "uploaded")
        let ((ups, errs), evs, db') := upload_loop b user_id db1 rest
        ((doc :: ups, errs),
          [.readFileCall f.filename, .uploadFileCall f.filename,
           .createRecordCall f.filename] ++ evs, db')

/-- `upload_files` from `file_service.py`: reject a batch of more than
`MAX_FILES_PER_UPLOAD` files outright (a raised `ValueError`, before any
per-file work), otherwise run the per-file loop. -/
def upload_files (b : Backend) (db : FilesDB) (user_id : Str)
    (files : List UploadFile) :
    Except Str (List FileDoc × List Str) × List IdxEvent × FilesDB :=
  if files.length > MAX_FILES_PER_UPLOAD then
    (.error (str "Максимум 10 файлов за раз"), [], db)
  else
    let ((ups, errs), evs, db') := upload_loop b user_id db files
    (.ok (ups, errs), evs, db')

/-- `upload_files_with_indexing` from `file_service.py`: upload the
batch, then (when anything was uploaded) rebuild the vector store and
mark the uploaded files `ready`; a rebuild failure is caught and
appended to the error list. -/
def upload_files_with_indexing (b : Backend) (db : FilesDB) (user_id : Str)
    (files : List UploadFile) :
    Except Str (List FileDoc × List Str) × List IdxEvent × FilesDB :=
  match upload_files b db user_id files with
  | (.error e, evs, db') => (.error e, evs, db')
  | (.ok (ups, errs), evs, db1) =>
    if !ups.isEmpty then
      match rebuild_vector_store b db1 with
      | (.error e, evs2, db2) =>
        (.ok (ups, errs ++ [str "Ошибка индексации: " ++ e]), evs ++ evs2, db2)
      | (.ok _, evs2, db2) =>
        let db3 := ups.foldl (fun d r => update_file_status d r.file_id (str "ready")) db2
        (.ok (ups, errs), evs ++ evs2, db3)
    else (.ok (ups, errs), evs, db1)

/-- `delete_file` from `file_service.py`: soft-delete the registry
record (raising when the file does not exist), delete the backing
object when one is bound, then try to rebuild the vector store —
logging, but otherwise ignoring, a rebuild failure — and report
success. -/
def delete_file (b : Backend) (db : FilesDB) (file_id : Str) :
    Except Str Bool × List IdxEvent × FilesDB :=
  match delete_file_record db file_id with
  | (none, _) => (.error (str "Файл не найден"), [], db)
  | (some f, db1) =>
    let step2 : Except Str Unit × List IdxEvent :=
      if !f.yandex_file_id.isEmpty then
        match b.delete_yandex f.yandex_file_id with
        | .error e => (.error e, [.deleteFileCall f.yandex_file_id])
        | .ok _ => (.ok (), [.deleteFileCall f.yandex_file_id])
      else (.ok (), [])
    match step2 with
    | (.error e, evs) => (.error e, evs, db1)
    | (.ok _, evs) =>
      let (_, evs2, db2) := rebuild_vector_store b db1
      (.ok true, evs ++ evs2, db2)

/-! ## Derived definitions used by the statements -/

/-- The messages of one thread in insertion order
(`chat_history.find({"thread_id": t})` without the sort). -/
def thread_history (db : ChatDB) (thread_id : Str) : List MsgDoc :=
  db.chat_history.filter (fun m => m.thread_id == thread_id)

/-- Append a batch of (role, content, meta) entries to one thread by
iterated `add_message`. -/
def add_messages (db : ChatDB) (user_id thread_id : Str)
    (entries : List (Str × Str × Option Nat)) (now : Nat) : ChatDB :=
  entries.foldl
    (fun d e => (add_message d user_id thread_id e.1 e.2.1 e.2.2 now).2) db

/-- The message documents that a batch of appends starting at sequence
number `k` produces. -/
def expected_history (user_id thread_id : Str) (now : Nat) :
    List (Str × Str × Option Nat) → Nat → List MsgDoc
  | [], _ => []
  | (r, c, m) :: rest, k =>
    { user_id := user_id, thread_id := thread_id, message_id := k, role := r,
      content := c, meta_chunks_used := m, created_at := now }
      :: expected_history user_id thread_id now rest (k + 1)

/-- A file of an upload batch that passes both per-file validations of
`upload_files`: allowed extension and size within the ceiling. -/
def good_upload (f : UploadFile) : Bool :=
  is_allowed_file f.filename && !(f.size > MAX_FILE_SIZE)

/-- The per-file error message `upload_files` reports for a file that
fails validation. -/
def upload_error_msg (f : UploadFile) : Str :=
  if !is_allowed_file f.filename then f.filename ++ str ": неподдерживаемый тип"
  else f.filename ++ str ": слишком большой (макс. 30MB)"

/-- The registry document `upload_files` creates for an accepted file,
given the backing identifier returned by the upload call. -/
def uploaded_doc (user_id : Str) (f : UploadFile) (yandex_id : Str) : FileDoc :=
  { file_id := f.fresh_id, user_id := user_id, filename := f.filename,
    file_type := get_file_extension f.filename, file_size := f.size,
    yandex_file_id := yandex_id, status := str "uploaded" }

/-! ### Concrete fixtures used by witnesses and counterexamples -/

/-- An empty conversation store. -/
def emptyChatDB : ChatDB := { chat_threads := [], chat_history := [] }

/-- A configuration with a configured search index. -/
def wConfig : Config := { search_index_id := str "idx" }

/-- A concrete backend whose completion calls all fail with a raised
client error, whose search returns one chunk, and whose
vector-store-creation call fails. -/
def failBackend : Backend :=
  { search := fun _ => [str "текст из базы"],
    relevance := fun _ => .exn,
    generate := fun _ _ _ => .exn,
    naming := fun _ => .exn,
    create_index := fun _ => .error (str "timeout"),
    delete_index := fun _ => .ok (),
    upload_yandex := fun _ => .error (str "unreachable"),
    delete_yandex := fun _ => .ok () }

/-- A concrete backend whose calls all succeed: one retrieved chunk, an
affirmative relevance verdict, fixed generated texts, and working
vector-store management. -/
def okBackend : Backend :=
  { search := fun _ => [str "текст из базы"],
    relevance := fun _ => .resp 200 (str "ДА"),
    generate := fun _ _ _ => .resp 200 (str "ответ"),
    naming := fun _ => .resp 200 (str "тема"),
    create_index := fun _ => .ok (str "vs_new"),
    delete_index := fun _ => .ok (),
    upload_yandex := fun f => .ok (str "y-" ++ f),
    delete_yandex := fun _ => .ok () }

/-- A concrete backend whose naming call returns a 200 response with an
empty name text. -/
def emptyNameBackend : Backend :=
  { okBackend with naming := fun _ => .resp 200 [] }

/-- A two-file registry bound to an existing vector store. -/
def twoFilesDB : FilesDB :=
  { files :=
      [{ file_id := str "f1", user_id := str "u", filename := str "a.txt",
         file_type := str "txt", file_size := 3, yandex_file_id := str "y1",
         status := str "ready" },
       { file_id := str "f2", user_id := str "u", filename := str "b.txt",
         file_type := str "txt", file_size := 3, yandex_file_id := str "y2",
         status := str "ready" }],
    vector_store_id := some (str "vs_old") }

/-- A concrete backend that uploads files successfully but whose
vector-store-creation call fails. -/
def idxFailUploadBackend : Backend :=
  { okBackend with create_index := fun _ => .error (str "timeout") }

/-! ## Helper lemmas -/

/-- Answer generation always performs exactly one generation call,
recording the context it was given. -/
theorem generate_answer_events (b : Backend) (q ctx : Str) (h : List (Str × Str)) :
    (generate_answer b q ctx h).2 = [.generateCall ctx] := rfl

/-- Chat naming always performs exactly one naming call. -/
theorem generate_chat_name_events (b : Backend) (m : Str) :
    (generate_chat_name b m).2 = [.namingCall m] := rfl

/-- The greeting check fires exactly when one of the three social
predicates does. -/
theorem get_greeting_response_isSome (text : Str) :
    (get_greeting_response text).isSome =
      (is_greeting text || is_farewell text || is_thanks text) := by
  unfold get_greeting_response
  split_ifs with h1 h2 h3 <;> simp [*]

/-! ## C6: social classification -/

/-- C6: for every input text, the message is classified social (the
pipeline's greeting check fires) if and only if the lower-cased, trimmed
text is exactly an entry of the fixed greeting/farewell/thanks
vocabulary and has at most `MAX_GREETING_WORDS = 5` words; in
particular a message of more than 5 words is never classified
social. -/
theorem social_iff_vocab_and_short (text : Str) :
    (get_greeting_response text).isSome = true ↔
      ((GREETINGS.contains (pyStrip (pyLower text)) ||
        FAREWELLS.contains (pyStrip (pyLower text)) ||
        THANKS.contains (pyStrip (pyLower text))) = true ∧
        (pyWords (pyStrip (pyLower text))).length ≤ MAX_GREETING_WORDS) := by
  rw [get_greeting_response_isSome]
  by_cases h : (pyWords (pyStrip (pyLower text))).length > MAX_GREETING_WORDS
  · have h1 : is_greeting text = false := by simp [is_greeting, h]
    have h2 : is_farewell text = false := by simp [is_farewell, h]
    have h3 : is_thanks text = false := by simp [is_thanks, h]
    simp only [h1, h2, h3, Bool.or_self, Bool.or_false, Bool.false_eq_true, false_iff,
      not_and]
    intro _
    omega
  · have hle : (pyWords (pyStrip (pyLower text))).length ≤ MAX_GREETING_WORDS :=
      Nat.not_lt.mp h
    have h1 : is_greeting text = GREETINGS.contains (pyStrip (pyLower text)) := by
      simp [is_greeting, h]
    have h2 : is_farewell text = FAREWELLS.contains (pyStrip (pyLower text)) := by
      simp [is_farewell, h]
    have h3 : is_thanks text = THANKS.contains (pyStrip (pyLower text)) := by
      simp [is_thanks, h]
    rw [h1, h2, h3]
    simp [hle]

/-- Witness for C6 at the concrete input "привет". -/
theorem social_iff_vocab_and_short_witness :
    (get_greeting_response (str "привет")).isSome = true :=
  (social_iff_vocab_and_short (str "привет")).mpr (by decide)

/-! ## C5: direct tasks bypass retrieval -/

/-- C5: for every message that is not social and is classified as a
direct task, the pipeline makes no similarity-search call, does make an
answer-generation call with an empty passage context, and returns an
empty chunks list whenever it succeeds. -/
theorem direct_task_skips_retrieval (b : Backend) (cfg : Config) (question : Str)
    (history : List (Str × Str))
    (hsoc : get_greeting_response question = none)
    (htask : is_direct_task question = true) :
    (∀ q, Event.searchCall q ∉ (rag_pipeline b cfg question history).2) ∧
    Event.generateCall [] ∈ (rag_pipeline b cfg question history).2 ∧
    (∀ a chunks, (rag_pipeline b cfg question history).1 = .ok (a, chunks) →
      chunks = []) := by
  rcases hga : generate_answer b question [] history with ⟨r, ev⟩
  have hev : ev = [Event.generateCall []] := by
    have h := generate_answer_events b question [] history
    rw [hga] at h
    exact h
  have hpipe : rag_pipeline b cfg question history = (r.map (fun a => (a, [])), ev) := by
    unfold rag_pipeline
    rw [hsoc, htask, hga]
    rfl
  rw [hpipe, hev]
  refine ⟨by simp, by simp, ?_⟩
  intro a chunks hok
  cases r with
  | error e => simp [Except.map] at hok
  | ok ans =>
    simp only [Except.map] at hok
    cases hok
    rfl

/-- Witness for C5 at the concrete input "проверь текст". -/
theorem direct_task_skips_retrieval_witness :
    (∀ q, Event.searchCall q ∉
      (rag_pipeline okBackend wConfig (str "проверь текст") []).2) ∧
    Event.generateCall [] ∈ (rag_pipeline okBackend wConfig (str "проверь текст") []).2 ∧
    (∀ a chunks,
      (rag_pipeline okBackend wConfig (str "проверь текст") []).1 = .ok (a, chunks) →
      chunks = []) :=
  direct_task_skips_retrieval okBackend wConfig (str "проверь текст") []
    (by decide) (by decide)

/-! ## C4: relevance gate fails open -/

/-- C4: for every question with a non-empty retrieved passage list, if
the relevance-check call raises or returns a non-200 status, the check
defaults to relevant (fail-open), the retrieved passages are kept — the
generation call receives the joined passages as grounding context and a
successful pipeline run reports exactly those chunks — and the check
consults only the single top passage truncated to 500 characters. -/
theorem relevance_fail_open (b : Backend) (cfg : Config) (question c0 : Str)
    (cs : List Str) (evs : List Event) (history : List (Str × Str))
    (hfail : ∀ t, b.relevance (relevance_prompt question (c0.take 500)) ≠ .resp 200 t)
    (hsoc : get_greeting_response question = none)
    (htask : is_direct_task question = false)
    (hsearch : search_index b cfg question 10 = (c0 :: cs, evs)) :
    (check_relevance b question (c0 :: cs)).1 = true ∧
    Event.generateCall (join_chunks (c0 :: cs)) ∈ (rag_pipeline b cfg question history).2 ∧
    (∀ a chunks, (rag_pipeline b cfg question history).1 = .ok (a, chunks) →
      chunks = c0 :: cs) ∧
    (∀ (b' : Backend) (q c1 c2 : Str) (cs1 cs2 : List Str), c1.take 500 = c2.take 500 →
      (check_relevance b' q (c1 :: cs1)).1 = (check_relevance b' q (c2 :: cs2)).1) := by
  have hrel : (check_relevance b question (c0 :: cs)).1 = true := by
    cases hb : b.relevance (relevance_prompt question (c0.take 500)) with
    | exn => simp [check_relevance, hb]
    | resp st t =>
      by_cases h200 : st = 200
      · subst h200
        exact absurd hb (hfail t)
      · simp [check_relevance, hb, h200]
  rcases hcr : check_relevance b question (c0 :: cs) with ⟨rel, ev2⟩
  have hrelv : rel = true := by rw [hcr] at hrel; exact hrel
  subst hrelv
  rcases hga : generate_answer b question (join_chunks (c0 :: cs)) history with ⟨r, ev3⟩
  have hev3 : ev3 = [Event.generateCall (join_chunks (c0 :: cs))] := by
    have h := generate_answer_events b question (join_chunks (c0 :: cs)) history
    rw [hga] at h
    exact h
  have hpipe : rag_pipeline b cfg question history =
      (r.map (fun a => (a, c0 :: cs)), evs ++ ev2 ++ ev3) := by
    unfold rag_pipeline
    rw [hsoc, htask, hsearch]
    simp only [List.isEmpty_cons, Bool.false_eq_true, if_false, hcr, Bool.not_true, hga]
  refine ⟨by rfl, ?_, ?_, ?_⟩
  · rw [hpipe, hev3]
    simp
  · rw [hpipe]
    intro a chunks hok
    cases r with
    | error e => simp [Except.map] at hok
    | ok ans =>
      simp only [Except.map] at hok
      cases hok
      rfl
  · intro b' q c1 c2 cs1 cs2 h500
    simp only [check_relevance]
    rw [h500]

/-- Witness for C4: a backend whose relevance call raises, one retrieved
chunk, and the question "расскажи о компании". -/
theorem relevance_fail_open_witness :
    (check_relevance failBackend (str "расскажи о компании") [str "текст из базы"]).1 = true ∧
    Event.generateCall (join_chunks [str "текст из базы"]) ∈
      (rag_pipeline failBackend wConfig (str "расскажи о компании") []).2 ∧
    (∀ a chunks,
      (rag_pipeline failBackend wConfig (str "расскажи о компании") []).1 = .ok (a, chunks) →
      chunks = [str "текст из базы"]) ∧
    (∀ (b' : Backend) (q c1 c2 : Str) (cs1 cs2 : List Str), c1.take 500 = c2.take 500 →
      (check_relevance b' q (c1 :: cs1)).1 = (check_relevance b' q (c2 :: cs2)).1) :=
  relevance_fail_open failBackend wConfig (str "расскажи о компании")
    (str "текст из базы") [] [.searchCall (str "расскажи о компании")] []
    (fun t h => by simp [failBackend] at h) (by decide) (by decide) (by decide)

/-! ## C2: rebuild creates the new index before deleting the old -/

/-- When index creation fails during a rebuild with a non-empty backing
set, the rebuild raises, makes no index-deletion call, and leaves the
registry (in particular the bound index identifier) unchanged. -/
theorem rebuild_create_error (b : Backend) (db : FilesDB) (e : Str)
    (h1 : active_yandex_ids db ≠ [])
    (h2 : b.create_index (active_yandex_ids db) = .error e) :
    rebuild_vector_store b db =
      (.error e, [.createIndexCall (active_yandex_ids db)], db) := by
  have hni : (active_yandex_ids db).isEmpty = false := by
    cases h : active_yandex_ids db
    · exact absurd h h1
    · rfl
  simp only [rebuild_vector_store, hni, Bool.false_eq_true, if_false, h2]

/-- The rebuild trace always starts with the index-creation call when
the backing set is non-empty. -/
theorem rebuild_trace_head (b : Backend) (db : FilesDB)
    (h : active_yandex_ids db ≠ []) :
    ∃ tl, (rebuild_vector_store b db).2.1 =
      .createIndexCall (active_yandex_ids db) :: tl := by
  have hni : (active_yandex_ids db).isEmpty = false := by
    cases hc : active_yandex_ids db
    · exact absurd hc h
    · rfl
  simp only [rebuild_vector_store, hni, Bool.false_eq_true, if_false]
  cases hc : b.create_index (active_yandex_ids db) with
  | error e => exact ⟨[], rfl⟩
  | ok nid =>
    by_cases hd : (pyTruthyOpt (get_current_vector_store_id db) &&
        (get_current_vector_store_id db != some nid)) = true
    · simp only [hd, if_true]
      cases b.delete_index ((get_current_vector_store_id db).getD []) with
      | error e => exact ⟨[.deleteIndexCall ((get_current_vector_store_id db).getD [])], rfl⟩
      | ok u => exact ⟨[.deleteIndexCall ((get_current_vector_store_id db).getD [])], rfl⟩
    · simp only [Bool.not_eq_true] at hd
      simp only [hd, Bool.false_eq_true, if_false]
      exact ⟨[], rfl⟩

/-- C2: for every rebuild with at least one remaining non-deleted
document carrying a backing identifier, the backend call creating the
new index from the remaining backing identifiers occurs in the trace,
and every index-deletion call occurs strictly after it — never in the
reverse order. -/
theorem rebuild_creates_before_deleting (b : Backend) (db : FilesDB)
    (h : active_yandex_ids db ≠ []) :
    IdxEvent.createIndexCall (active_yandex_ids db) ∈ (rebuild_vector_store b db).2.1 ∧
    (∀ (i : Nat) (x : Str),
      ((rebuild_vector_store b db).2.1)[i]? = some (IdxEvent.deleteIndexCall x) →
      ∃ j, j < i ∧ ((rebuild_vector_store b db).2.1)[j]? =
        some (IdxEvent.createIndexCall (active_yandex_ids db))) := by
  obtain ⟨tl, htl⟩ := rebuild_trace_head b db h
  rw [htl]
  constructor
  · exact List.mem_cons_self _ _
  · intro i x hx
    cases i with
    | zero => simp at hx
    | succ n =>
      exact ⟨0, Nat.succ_pos n, by simp⟩

/-- Witness for C2: deleting one of two indexed files; the remaining
backing identifier set is non-empty. -/
theorem rebuild_creates_before_deleting_witness :
    IdxEvent.createIndexCall (active_yandex_ids twoFilesDB) ∈
      (rebuild_vector_store okBackend twoFilesDB).2.1 ∧
    (∀ (i : Nat) (x : Str),
      ((rebuild_vector_store okBackend twoFilesDB).2.1)[i]? =
        some (IdxEvent.deleteIndexCall x) →
      ∃ j, j < i ∧ ((rebuild_vector_store okBackend twoFilesDB).2.1)[j]? =
        some (IdxEvent.createIndexCall (active_yandex_ids twoFilesDB))) :=
  rebuild_creates_before_deleting okBackend twoFilesDB (by decide)

/-! ## C9: index-rebuild failure handling -/

/-- Counterexample for C9: deleting file `f1` while the index-creation
call of the triggered rebuild fails with a raised error still reports
the deletion as successful (`.ok true`): the rebuild failure is only
logged, not reported as a failure of the mutation. -/
theorem index_failure_swallowed_on_delete :
    failBackend.create_index
        (active_yandex_ids (update_file_status twoFilesDB (str "f1") (str "deleted"))) =
      .error (str "timeout") ∧
    (delete_file failBackend twoFilesDB (str "f1")).1 = .ok true := by
  decide

/-- C9 (amended): when index creation fails during a mutation's rebuild
(1) the rebuild raises, makes no index-deletion call and leaves the
bound index identifier unchanged, so the previous index remains
authoritative; (2) `delete_file` nevertheless reports success — the
failure is only logged — while the old binding and index survive; and
(3) `upload_files_with_indexing` reports the failure by appending an
indexing error to the returned error list, with the registry and
binding left as the upload produced them. -/
theorem index_create_failure_handling :
    (∀ (b : Backend) (db : FilesDB) (e : Str),
      active_yandex_ids db ≠ [] →
      b.create_index (active_yandex_ids db) = .error e →
      rebuild_vector_store b db =
        (.error e, [.createIndexCall (active_yandex_ids db)], db)) ∧
    (∀ (b : Backend) (db : FilesDB) (fid : Str) (f : FileDoc) (e : Str),
      db.files.find? (fun g => g.file_id == fid) = some f →
      (f.yandex_file_id ≠ [] → b.delete_yandex f.yandex_file_id = .ok ()) →
      active_yandex_ids (update_file_status db fid (str "deleted")) ≠ [] →
      b.create_index (active_yandex_ids (update_file_status db fid (str "deleted"))) =
        .error e →
      (delete_file b db fid).1 = .ok true ∧
      (delete_file b db fid).2.2.vector_store_id = db.vector_store_id ∧
      (∀ x : Str, IdxEvent.deleteIndexCall x ∉ (delete_file b db fid).2.1)) ∧
    (∀ (b : Backend) (db db1 : FilesDB) (uid : Str) (files : List UploadFile)
      (ups : List FileDoc) (errs : List Str) (evs : List IdxEvent) (e : Str),
      upload_files b db uid files = (.ok (ups, errs), evs, db1) →
      ups ≠ [] →
      active_yandex_ids db1 ≠ [] →
      b.create_index (active_yandex_ids db1) = .error e →
      upload_files_with_indexing b db uid files =
        (.ok (ups, errs ++ [str "Ошибка индексации: " ++ e]),
          evs ++ [.createIndexCall (active_yandex_ids db1)], db1)) := by
  refine ⟨fun b db e h1 h2 => rebuild_create_error b db e h1 h2, ?_, ?_⟩
  · intro b db fid f e hfind hy hids hcr
    have hrec : delete_file_record db fid =
        (some f, update_file_status db fid (str "deleted")) := by
      unfold delete_file_record
      rw [hfind]
    have hreb := rebuild_create_error b (update_file_status db fid (str "deleted")) e
      hids hcr
    by_cases hemp : f.yandex_file_id.isEmpty = true
    · have : delete_file b db fid =
          (.ok true, [] ++ [.createIndexCall
              (active_yandex_ids (update_file_status db fid (str "deleted")))],
            update_file_status db fid (str "deleted")) := by
        unfold delete_file
        rw [hrec]
        simp only [hemp, Bool.not_true, Bool.false_eq_true, if_false, hreb]
      rw [this]
      exact ⟨rfl, rfl, by simp⟩
    · have hy' : b.delete_yandex f.yandex_file_id = .ok () := by
        apply hy
        intro hnil
        rw [hnil] at hemp
        exact hemp rfl
      have : delete_file b db fid =
          (.ok true, [.deleteFileCall f.yandex_file_id] ++ [.createIndexCall
              (active_yandex_ids (update_file_status db fid (str "deleted")))],
            update_file_status db fid (str "deleted")) := by
        unfold delete_file
        rw [hrec]
        simp only [Bool.not_eq_true] at hemp
        simp only [hemp, Bool.not_false, if_true, hy', hreb]
      rw [this]
      exact ⟨rfl, rfl, by simp⟩
  · intro b db db1 uid files ups errs evs e hup hne hids hcr
    have hni : ups.isEmpty = false := by
      cases ups
      · exact absurd rfl hne
      · rfl
    unfold upload_files_with_indexing
    rw [hup]
    simp only [hni, Bool.not_false, if_true, rebuild_create_error b db1 e hids hcr]

/-- Witness for C9 (amended), combining all three parts at concrete
inputs. -/
theorem index_create_failure_handling_witness :
    rebuild_vector_store failBackend twoFilesDB =
      (.error (str "timeout"), [.createIndexCall (active_yandex_ids twoFilesDB)],
        twoFilesDB) ∧
    (delete_file failBackend twoFilesDB (str "f1")).2.2.vector_store_id =
      twoFilesDB.vector_store_id ∧
    (∀ x : Str,
      IdxEvent.deleteIndexCall x ∉ (delete_file failBackend twoFilesDB (str "f1")).2.1) ∧
    upload_files_with_indexing idxFailUploadBackend twoFilesDB (str "u")
        [⟨str "c.txt", 3, str "f3"⟩] =
      (.ok ([⟨str "f3", str "u", str "c.txt", str "txt", 3, str "y-c.txt",
          str "uploaded"⟩],
          [] ++ [str "Ошибка индексации: " ++ str "timeout"]),
        [.readFileCall (str "c.txt"), .uploadFileCall (str "c.txt"),
          .createRecordCall (str "c.txt")] ++
          [.createIndexCall (active_yandex_ids
            ⟨twoFilesDB.files ++ [⟨str "f3", str "u", str "c.txt", str "txt", 3,
              str "y-c.txt", str "uploaded"⟩], some (str "vs_old")⟩)],
        ⟨twoFilesDB.files ++ [⟨str "f3", str "u", str "c.txt", str "txt", 3,
          str "y-c.txt", str "uploaded"⟩], some (str "vs_old")⟩) := by
  refine ⟨index_create_failure_handling.1 failBackend twoFilesDB (str "timeout")
      (by decide) (by decide), ?_, ?_, ?_⟩
  · exact (index_create_failure_handling.2.1 failBackend twoFilesDB (str "f1")
      ⟨str "f1", str "u", str "a.txt", str "txt", 3, str "y1", str "ready"⟩
      (str "timeout") (by decide) (fun _ => rfl) (by decide) (by decide)).2.1
  · exact (index_create_failure_handling.2.1 failBackend twoFilesDB (str "f1")
      ⟨str "f1", str "u", str "a.txt", str "txt", 3, str "y1", str "ready"⟩
      (str "timeout") (by decide) (fun _ => rfl) (by decide) (by decide)).2.2
  · exact index_create_failure_handling.2.2 idxFailUploadBackend twoFilesDB
      ⟨twoFilesDB.files ++ [⟨str "f3", str "u", str "c.txt", str "txt", 3,
        str "y-c.txt", str "uploaded"⟩], some (str "vs_old")⟩
      (str "u") [⟨str "c.txt", 3, str "f3"⟩]
      [⟨str "f3", str "u", str "c.txt", str "txt", 3, str "y-c.txt", str "uploaded"⟩]
      [] [.readFileCall (str "c.txt"), .uploadFileCall (str "c.txt"),
        .createRecordCall (str "c.txt")] (str "timeout")
      (by decide) (by decide) (by decide) (by decide)

/-! ## C10: chat-name generation is total with deterministic fallbacks -/

/-- The outer fallback name is never empty. -/
theorem fallback_chat_name_ne_nil (m : Str) : fallback_chat_name m ≠ [] := by
  have hpre : str "Чат: " ≠ [] := by decide
  unfold fallback_chat_name
  cases h1 : str "Чат: " with
  | nil => exact absurd h1 hpre
  | cons a as =>
    split <;> simp [h1]

/-- Counterexample for C10: with an empty input message and a naming
call that returns status 200 with an empty name text, the generated
chat name is empty — the claim's "returns a non-empty name" fails for
the empty message. -/
theorem chat_name_empty_on_empty_message :
    (generate_chat_name emptyNameBackend []).1 = [] := by decide

/-- C10 (amended): chat-name generation is a total function (never
raises).  For every non-empty input message the returned name is
non-empty; when the naming call raises or returns a non-200 status the
deterministic `Чат: ...` fallback derived from a 30-character truncation
of the message is returned; and when a 200 response yields an empty or
over-100-character name, a truncation of the message itself is
returned.  (On the empty message with an empty 200-name the result is
empty, which is the only failure of the original claim.) -/
theorem chat_name_total_and_fallbacks (b : Backend) (message : Str) :
    (message ≠ [] → (generate_chat_name b message).1 ≠ []) ∧
    (∀ (st : Nat) (t : Str), b.naming (naming_prompt message) = .resp st t → st ≠ 200 →
      (generate_chat_name b message).1 = fallback_chat_name message) ∧
    (b.naming (naming_prompt message) = .exn →
      (generate_chat_name b message).1 = fallback_chat_name message) ∧
    (∀ t : Str, b.naming (naming_prompt message) = .resp 200 t →
      ((pyStripChars NAME_QUOTE_CHARS (pyStrip t)).isEmpty = true ∨
        (pyStripChars NAME_QUOTE_CHARS (pyStrip t)).length > 100) →
      (generate_chat_name b message).1 =
        (if message.length > 50 then message.take 50 else message)) := by
  refine ⟨?_, ?_, ?_, ?_⟩
  · intro hmsg
    unfold generate_chat_name
    cases hb : b.naming (naming_prompt message) with
    | exn => exact fallback_chat_name_ne_nil message
    | resp st t =>
      by_cases h200 : st = 200
      · subst h200
        simp only [if_true]
        by_cases hbad : ((pyStripChars NAME_QUOTE_CHARS (pyStrip t)).isEmpty ||
            decide ((pyStripChars NAME_QUOTE_CHARS (pyStrip t)).length > 100)) = true
        · simp only [hbad, if_true]
          split
          · cases message with
            | nil => exact absurd rfl hmsg
            | cons a as => simp
          · exact hmsg
        · simp only [Bool.not_eq_true] at hbad
          simp only [hbad, Bool.false_eq_true, if_false]
          intro hc
          rw [hc] at hbad
          simp at hbad
      · simp only [h200, if_false]
        exact fallback_chat_name_ne_nil message
  · intro st t hb hne
    unfold generate_chat_name
    rw [hb]
    simp [hne]
  · intro hb
    unfold generate_chat_name
    rw [hb]
  · intro t hb hbad
    unfold generate_chat_name
    rw [hb]
    have hbad' : ((pyStripChars NAME_QUOTE_CHARS (pyStrip t)).isEmpty ||
        decide ((pyStripChars NAME_QUOTE_CHARS (pyStrip t)).length > 100)) = true := by
      rcases hbad with h | h
      · simp [h]
      · simp [h]
    simp [hbad']

/-- Witness for C10 (amended) at the concrete message "вопрос" with a
backend whose naming call raises. -/
theorem chat_name_total_and_fallbacks_witness :
    (generate_chat_name failBackend (str "вопрос")).1 = fallback_chat_name (str "вопрос") ∧
    (generate_chat_name failBackend (str "вопрос")).1 ≠ [] :=
  ⟨(chat_name_total_and_fallbacks failBackend (str "вопрос")).2.2.1 rfl,
    (chat_name_total_and_fallbacks failBackend (str "вопрос")).1 (by decide)⟩

/-! ## C8: upload batch validation -/

/-- Characterization of the per-file upload loop when the backend
accepts every upload: accepted files (allowed type, size within the
ceiling) become registry records in order, and each rejected file
contributes its per-file error message while the rest of the batch is
still processed. -/
theorem upload_loop_spec (b : Backend) (uid : Str) (yfun : UploadFile → Str) :
    ∀ (files : List UploadFile) (db : FilesDB),
      (∀ f ∈ files, b.upload_yandex f.filename = .ok (yfun f)) →
      (upload_loop b uid db files).1 =
        ((files.filter good_upload).map (fun f => uploaded_doc uid f (yfun f)),
          (files.filter (fun f => !good_upload f)).map upload_error_msg) := by
  intro files
  induction files with
  | nil =>
    intro db hb
    rfl
  | cons f rest ih =>
    intro db hb
    have hbf : b.upload_yandex f.filename = .ok (yfun f) :=
      hb f (List.mem_cons_self f rest)
    have hbrest : ∀ g ∈ rest, b.upload_yandex g.filename = .ok (yfun g) :=
      fun g hg => hb g (List.mem_cons_of_mem f hg)
    by_cases hall : is_allowed_file f.filename = true
    · by_cases hsize : f.size > MAX_FILE_SIZE
      · have hgood : good_upload f = false := by
          simp [good_upload, hall, hsize]
        rcases hrec : upload_loop b uid db rest with ⟨⟨ups, errs⟩, evs, db'⟩
        have ihr := ih db hbrest
        rw [hrec] at ihr
        simp only [upload_loop, hall, Bool.not_true, Bool.false_eq_true, if_false,
          hsize, if_true, hrec]
        simp only [List.filter_cons, hgood, Bool.false_eq_true, if_false,
          Bool.not_false, if_true, List.map_cons]
        rw [Prod.mk.injEq] at ihr
        rw [ihr.1, ihr.2]
        simp [upload_error_msg, hall]
      · have hgood : good_upload f = true := by
          simp [good_upload, hall, hsize]
        rcases hrec : upload_loop b uid
            (create_file_record db f.fresh_id uid f.filename
              (get_file_extension f.filename) f.size (yfun f) (str "uploaded")).2
            rest with ⟨⟨ups, errs⟩, evs, db'⟩
        have ihr := ih (create_file_record db f.fresh_id uid f.filename
          (get_file_extension f.filename) f.size (yfun f) (str "uploaded")).2 hbrest
        rw [hrec] at ihr
        simp only [upload_loop, hall, Bool.not_true, Bool.false_eq_true, if_false,
          hsize, if_true, hbf, hrec]
        simp only [List.filter_cons, hgood, if_true, Bool.not_true, Bool.false_eq_true,
          if_false, List.map_cons]
        rw [Prod.mk.injEq] at ihr
        rw [ihr.1, ihr.2]
        rfl
    · have hgood : good_upload f = false := by
        simp [good_upload, hall]
      rcases hrec : upload_loop b uid db rest with ⟨⟨ups, errs⟩, evs, db'⟩
      have ihr := ih db hbrest
      rw [hrec] at ihr
      have hall' : is_allowed_file f.filename = false := by
        simp only [Bool.not_eq_true] at hall
        exact hall
      simp only [upload_loop, hall', Bool.not_false, if_true, hrec]
      simp only [List.filter_cons, hgood, Bool.false_eq_true, if_false,
        Bool.not_false, if_true, List.map_cons]
      rw [Prod.mk.injEq] at ihr
      rw [ihr.1, ihr.2]
      simp [upload_error_msg, hall']

/-- C8: a batch of more than `MAX_FILES_PER_UPLOAD = 10` files is
rejected as a whole with a raised client error, before any file is read,
any backend upload happens, or any registry record is created (empty
trace, registry unchanged); a batch of at most 10 files is processed
per-file: every file with a disallowed extension or a size over 30 MB is
reported in the error list while every other file of the batch is still
uploaded and recorded (partial success). -/
theorem upload_batch_validation :
    (∀ (b : Backend) (db : FilesDB) (uid : Str) (files : List UploadFile),
      files.length > MAX_FILES_PER_UPLOAD →
      upload_files b db uid files = (.error (str "Максимум 10 файлов за раз"), [], db)) ∧
    (∀ (b : Backend) (db : FilesDB) (uid : Str) (files : List UploadFile)
      (yfun : UploadFile → Str),
      files.length ≤ MAX_FILES_PER_UPLOAD →
      (∀ f ∈ files, b.upload_yandex f.filename = .ok (yfun f)) →
      (upload_files b db uid files).1 =
        .ok ((files.filter good_upload).map (fun f => uploaded_doc uid f (yfun f)),
          (files.filter (fun f => !good_upload f)).map upload_error_msg)) := by
  constructor
  · intro b db uid files hlen
    unfold upload_files
    rw [if_pos hlen]
  · intro b db uid files yfun hlen hb
    unfold upload_files
    rw [if_neg (Nat.not_lt.mpr hlen)]
    rcases hrec : upload_loop b uid db files with ⟨⟨ups, errs⟩, evs, db'⟩
    have ihr := upload_loop_spec b uid yfun files db hb
    rw [hrec] at ihr
    rw [Prod.mk.injEq] at ihr
    simp only [hrec]
    rw [ihr.1, ihr.2]

/-- Witness for C8: an 11-file batch is rejected outright; a 3-file
batch with one disallowed type and one oversized file uploads exactly
the valid file and reports the two others. -/
theorem upload_batch_validation_witness :
    upload_files okBackend twoFilesDB (str "u")
        (List.replicate 11 ⟨str "a.txt", 1, str "id"⟩) =
      (.error (str "Максимум 10 файлов за раз"), [], twoFilesDB) ∧
    (upload_files okBackend twoFilesDB (str "u")
        [⟨str "a.txt", 3, str "g1"⟩, ⟨str "b.exe", 3, str "g2"⟩,
          ⟨str "c.txt", 40000000, str "g3"⟩]).1 =
      .ok (([⟨str "a.txt", 3, str "g1"⟩, ⟨str "b.exe", 3, str "g2"⟩,
            ⟨str "c.txt", 40000000, str "g3"⟩].filter good_upload).map
          (fun f => uploaded_doc (str "u") f (str "y-" ++ f.filename)),
        ([⟨str "a.txt", 3, str "g1"⟩, ⟨str "b.exe", 3, str "g2"⟩,
            ⟨str "c.txt", 40000000, str "g3"⟩].filter
          (fun f => !good_upload f)).map upload_error_msg) :=
  ⟨upload_batch_validation.1 okBackend twoFilesDB (str "u")
      (List.replicate 11 ⟨str "a.txt", 1, str "id"⟩) (by decide),
    upload_batch_validation.2 okBackend twoFilesDB (str "u")
      [⟨str "a.txt", 3, str "g1"⟩, ⟨str "b.exe", 3, str "g2"⟩,
        ⟨str "c.txt", 40000000, str "g3"⟩]
      (fun f => str "y-" ++ f.filename) (by decide) (by decide)⟩

/-! ## C1: per-thread sequence numbers round-trip -/

/-- Touching a thread's `updated_at` leaves the message log unchanged. -/
theorem thread_history_touch (db : ChatDB) (t t' : Str) (now : Nat) :
    thread_history (touch_chat_thread db t' now) t = thread_history db t := rfl

/-- Creating a thread record leaves the message log unchanged. -/
theorem thread_history_create (db : ChatDB) (u tid a v : Str) (n : Option Str)
    (now : Nat) (t : Str) :
    thread_history (create_chat_thread db u tid a v n now) t = thread_history db t := rfl

/-- `add_message` appends exactly its inserted document to the thread's
log. -/
theorem thread_history_add (db : ChatDB) (u t r c : Str) (m : Option Nat) (now : Nat) :
    thread_history (add_message db u t r c m now).2 t =
      thread_history db t ++ [(add_message db u t r c m now).1] := by
  unfold add_message thread_history touch_chat_thread
  simp [List.filter_append]

/-- `add_message` leaves every other thread's log unchanged. -/
theorem thread_history_add_other (db : ChatDB) (u t t' r c : Str) (m : Option Nat)
    (now : Nat) (hne : (t' == t) = false) :
    thread_history (add_message db u t r c m now).2 t' = thread_history db t' := by
  have hne' : ¬(t = t') := by
    intro h
    subst h
    simp at hne
  unfold add_message thread_history touch_chat_thread
  simp [List.filter_append, hne']

/-- Splitting a batch of expected documents. -/
theorem expected_history_append (u t : Str) (now : Nat)
    (xs ys : List (Str × Str × Option Nat)) :
    ∀ k, expected_history u t now (xs ++ ys) k =
      expected_history u t now xs k ++ expected_history u t now ys (k + xs.length) := by
  induction xs with
  | nil => intro k; simp [expected_history]
  | cons e rest ih =>
    intro k
    rcases e with ⟨r, c, m⟩
    simp only [List.cons_append, expected_history, List.length_cons, List.append_eq]
    rw [ih (k + 1)]
    have harith : k + 1 + rest.length = k + (rest.length + 1) := by omega
    rw [harith]

/-- The sequence numbers of a batch of expected documents form the
contiguous range starting at `k`. -/
theorem expected_history_ids (u t : Str) (now : Nat) :
    ∀ (es : List (Str × Str × Option Nat)) (k : Nat),
      (expected_history u t now es k).map (fun x => x.message_id) =
        List.range' k es.length := by
  intro es
  induction es with
  | nil => intro k; rfl
  | cons e rest ih =>
    intro k
    rcases e with ⟨r, c, m⟩
    simp only [expected_history, List.map_cons, ih (k + 1), List.length_cons,
      List.range'_succ]

/-- The (role, content, metadata) projection of a batch of expected
documents is the batch itself. -/
theorem expected_history_entries (u t : Str) (now : Nat) :
    ∀ (es : List (Str × Str × Option Nat)) (k : Nat),
      (expected_history u t now es k).map
        (fun x => (x.role, x.content, x.meta_chunks_used)) = es := by
  intro es
  induction es with
  | nil => intro k; rfl
  | cons e rest ih =>
    intro k
    rcases e with ⟨r, c, m⟩
    simp only [expected_history, List.map_cons, ih (k + 1)]

/-- Expected documents preserve the batch length. -/
theorem expected_history_length (u t : Str) (now : Nat) :
    ∀ (es : List (Str × Str × Option Nat)) (k : Nat),
      (expected_history u t now es k).length = es.length := by
  intro es
  induction es with
  | nil => intro k; rfl
  | cons e rest ih =>
    intro k
    rcases e with ⟨r, c, m⟩
    simp only [expected_history, List.length_cons, ih (k + 1)]

/-- All sequence numbers of a batch of expected documents are at least
the starting number. -/
theorem expected_history_id_le (u t : Str) (now : Nat) :
    ∀ (es : List (Str × Str × Option Nat)) (k : Nat),
      ∀ x ∈ expected_history u t now es k, k ≤ x.message_id := by
  intro es
  induction es with
  | nil =>
    intro k x hx
    simp [expected_history] at hx
  | cons e rest ih =>
    intro k x hx
    rcases e with ⟨r, c, m⟩
    simp only [expected_history, List.mem_cons] at hx
    rcases hx with hx | hx
    · rw [hx]
    · exact Nat.le_of_succ_le (ih (k + 1) x hx)

/-- A batch of expected documents is sorted by sequence number. -/
theorem expected_history_sorted (u t : Str) (now : Nat) :
    ∀ (es : List (Str × Str × Option Nat)) (k : Nat),
      (expected_history u t now es k).Sorted
        (fun a b => a.message_id ≤ b.message_id) := by
  intro es
  induction es with
  | nil => intro k; simp [expected_history, List.Sorted]
  | cons e rest ih =>
    intro k
    rcases e with ⟨r, c, m⟩
    rw [expected_history, List.sorted_cons]
    refine ⟨?_, ih (k + 1)⟩
    intro x hx
    exact Nat.le_of_succ_le (expected_history_id_le u t now rest (k + 1) x hx)

/-- Folding `max` over values bounded by `a` stays bounded by `a`. -/
theorem foldl_max_bounded (a : Nat) :
    ∀ (xs : List Nat) (x : Nat), x ≤ a → (∀ y ∈ xs, y ≤ a) → xs.foldl max x ≤ a := by
  intro xs
  induction xs with
  | nil => intro x hx _; exact hx
  | cons y ys ih =>
    intro x hx hys
    simp only [List.foldl_cons]
    exact ih (max x y) (max_le hx (hys y (List.mem_cons_self y ys)))
      (fun z hz => hys z (List.mem_cons_of_mem y hz))

/-- The maximum of a list with a final element dominating the rest. -/
theorem max?_append_singleton (l : List Nat) (a : Nat) (h : ∀ x ∈ l, x ≤ a) :
    (l ++ [a]).max? = some a := by
  cases l with
  | nil => rfl
  | cons x xs =>
    simp only [List.cons_append, List.max?_cons']
    rw [List.foldl_append]
    simp only [List.foldl_cons, List.foldl_nil]
    have hx : x ≤ a := h x (List.mem_cons_self x xs)
    have hxs : ∀ y ∈ xs, y ≤ a := fun y hy => h y (List.mem_cons_of_mem x hy)
    have : xs.foldl max x ≤ a := foldl_max_bounded a xs x hx hxs
    congr 1
    omega

/-- The maximum of the contiguous range starting at 1. -/
theorem range'_one_max (n : Nat) :
    (List.range' 1 n).max? = if n = 0 then none else some n := by
  cases n with
  | zero => rfl
  | succ m =>
    have hcc := @List.range'_concat 1 1 m
    simp only [Nat.one_mul] at hcc
    rw [hcc]
    rw [max?_append_singleton]
    · simp
      omega
    · intro x hx
      have := List.mem_range'_1.mp hx
      omega

/-- One `add_message` extends an expected history by one document with
the next sequence number (last-known-max + 1, or 1 when the thread is
empty). -/
theorem thread_history_add_expected (db : ChatDB) (u t : Str) (now : Nat)
    (done : List (Str × Str × Option Nat)) (r c : Str) (m : Option Nat)
    (h : thread_history db t = expected_history u t now done 1) :
    thread_history (add_message db u t r c m now).2 t =
      expected_history u t now (done ++ [(r, c, m)]) 1 := by
  have hlast : last_message_id db t =
      (if done.length = 0 then none else some done.length) := by
    have h0 : last_message_id db t =
        ((thread_history db t).map (fun x => x.message_id)).max? := rfl
    rw [h0, h, expected_history_ids, range'_one_max]
  have hdoc : (add_message db u t r c m now).1 =
      { user_id := u, thread_id := t, message_id := done.length + 1, role := r,
        content := c, meta_chunks_used := m, created_at := now } := by
    unfold add_message
    simp only [hlast]
    by_cases hL : done.length = 0
    · simp [hL]
    · simp [hL]
  rw [thread_history_add, h, hdoc, expected_history_append]
  simp only [expected_history, List.length_nil]
  have harith : 1 + done.length = done.length + 1 := by omega
  rw [harith]

/-- Folding a batch of appends over a thread whose log is an expected
history extends the expected history by the batch. -/
theorem add_messages_history (u t : Str) (now : Nat) :
    ∀ (es done : List (Str × Str × Option Nat)) (db : ChatDB),
      thread_history db t = expected_history u t now done 1 →
      thread_history (add_messages db u t es now) t =
        expected_history u t now (done ++ es) 1 := by
  intro es
  induction es with
  | nil =>
    intro done db h
    simpa using h
  | cons e rest ih =>
    intro done db h
    rcases e with ⟨r, c, m⟩
    have hstep := thread_history_add_expected db u t now done r c m h
    have hrec := ih (done ++ [(r, c, m)])
      (add_message db u t r c m now).2 hstep
    have : add_messages db u t ((r, c, m) :: rest) now =
        add_messages (add_message db u t r c m now).2 u t rest now := rfl
    rw [this, hrec, List.append_assoc]
    rfl

/-- Reading a thread whose log is an expected history of at most 1000
entries returns it unchanged: it is already sorted by sequence number
and within the read cap. -/
theorem get_chat_history_of_expected (db : ChatDB) (u t : Str) (now : Nat)
    (es : List (Str × Str × Option Nat)) (hlen : es.length ≤ 1000)
    (h : thread_history db t = expected_history u t now es 1) :
    get_chat_history db t = expected_history u t now es 1 := by
  have h0 : db.chat_history.filter (fun x => x.thread_id == t) = thread_history db t :=
    rfl
  unfold get_chat_history
  rw [h0, h, List.Sorted.insertionSort_eq (expected_history_sorted u t now es 1)]
  apply List.take_of_length_le
  rw [expected_history_length]
  exact hlen

/-- Counterexample for C1: after appending 1001 messages to a fresh
thread, `get_chat_history` returns only 1000 of them (the
`to_list(length=1000)` cap), so the read-back does not return all
appended messages. -/
theorem history_readback_capped :
    (get_chat_history (add_messages emptyChatDB (str "u") (str "t")
        (List.replicate 1001 (str "user", str "x", none)) 0) (str "t")).length = 1000 ∧
    (List.replicate 1001 ((str "user"), (str "x"), (none : Option Nat))).length = 1001 := by
  have h0 : thread_history emptyChatDB (str "t") =
      expected_history (str "u") (str "t") 0 [] 1 := rfl
  have hall := add_messages_history (str "u") (str "t") 0
    (List.replicate 1001 (str "user", str "x", none)) [] emptyChatDB h0
  rw [List.nil_append] at hall
  have h1 : (get_chat_history (add_messages emptyChatDB (str "u") (str "t")
      (List.replicate 1001 (str "user", str "x", none)) 0) (str "t")).length = 1000 := by
    have hfil : (add_messages emptyChatDB (str "u") (str "t")
        (List.replicate 1001 (str "user", str "x", none)) 0).chat_history.filter
          (fun x => x.thread_id == str "t") =
        expected_history (str "u") (str "t") 0
          (List.replicate 1001 (str "user", str "x", none)) 1 := hall
    unfold get_chat_history
    rw [hfil, List.Sorted.insertionSort_eq (expected_history_sorted (str "u") (str "t") 0
      (List.replicate 1001 (str "user", str "x", none)) 1)]
    rw [List.length_take, expected_history_length, List.length_replicate]
    omega
  exact ⟨h1, List.length_replicate 1001 _⟩

/-- C1 (amended): for every thread that starts with an empty message
log, appending a batch of at most 1000 messages via `add_message` and
reading them back via `get_chat_history` returns exactly the appended
messages, ordered by sequence number 1, 2, …, N with no gaps — the Nth
appended message carries sequence number N; beyond 1000 messages the
read-back is capped at the first 1000. -/
theorem history_roundtrip (db0 : ChatDB) (u t : Str) (now : Nat)
    (es : List (Str × Str × Option Nat))
    (hfresh : thread_history db0 t = [])
    (hlen : es.length ≤ 1000) :
    (get_chat_history (add_messages db0 u t es now) t).map (fun x => x.message_id) =
      List.range' 1 es.length ∧
    (get_chat_history (add_messages db0 u t es now) t).map
      (fun x => (x.role, x.content, x.meta_chunks_used)) = es := by
  have h0 : thread_history db0 t = expected_history u t now [] 1 := hfresh
  have hall := add_messages_history u t now es [] db0 h0
  rw [List.nil_append] at hall
  have hread := get_chat_history_of_expected (add_messages db0 u t es now) u t now es
    hlen hall
  rw [hread, expected_history_ids, expected_history_entries]
  exact ⟨rfl, rfl⟩

/-- Witness for C1 (amended): three appends on a fresh thread read back
with sequence numbers 1, 2, 3 and the original contents. -/
theorem history_roundtrip_witness :
    (get_chat_history (add_messages emptyChatDB (str "u") (str "t")
        [(str "user", str "а", none), (str "assistant", str "б", some 0),
          (str "user", str "в", none)] 7) (str "t")).map (fun x => x.message_id) =
      List.range' 1 3 ∧
    (get_chat_history (add_messages emptyChatDB (str "u") (str "t")
        [(str "user", str "а", none), (str "assistant", str "б", some 0),
          (str "user", str "в", none)] 7) (str "t")).map
      (fun x => (x.role, x.content, x.meta_chunks_used)) =
      [(str "user", str "а", none), (str "assistant", str "б", some 0),
        (str "user", str "в", none)] :=
  history_roundtrip emptyChatDB (str "u") (str "t") 7
    [(str "user", str "а", none), (str "assistant", str "б", some 0),
      (str "user", str "в", none)] (by decide) (by decide)

/-! ## C7: resolving an existing thread is idempotent -/

/-- `updateFirst` preserves any projection that its update function
preserves. -/
theorem updateFirst_map_eq {α β : Type} (p : α → Bool) (f : α → α) (proj : α → β)
    (hf : ∀ x, proj (f x) = proj x) :
    ∀ l : List α, (updateFirst p f l).map proj = l.map proj := by
  intro l
  induction l with
  | nil => rfl
  | cons x xs ih =>
    unfold updateFirst
    by_cases hp : p x = true
    · simp [hp, hf]
    · simp [hp, ih]

/-- Appending a message preserves every thread's identifier and name
(only `updated_at` is touched). -/
theorem add_message_threads_proj (db : ChatDB) (u t r c : Str) (m : Option Nat)
    (now : Nat) :
    ((add_message db u t r c m now).2).chat_threads.map
        (fun x => (x.thread_id, x.chat_name)) =
      db.chat_threads.map (fun x => (x.thread_id, x.chat_name)) := by
  unfold add_message touch_chat_thread
  dsimp only
  apply updateFirst_map_eq
  intro x
  rfl

/-- C7: for every existing thread identifier, `process_message` with
that identifier keeps the set of threads exactly as it was — no second
thread is created and no thread's name changes — and, on success,
returns the same thread identifier with `new_chat_created = false`. -/
theorem existing_thread_idempotent (b : Backend) (cfg : Config) (db : ChatDB)
    (u msg tid : Str) (meta : Option Nat) (fresh : Str) (now : Nat)
    (th : ThreadDoc) (h : get_chat_thread db tid = some th) :
    ((process_message b cfg db u msg (some tid) meta fresh now).2.1.chat_threads.map
        (fun x => (x.thread_id, x.chat_name)) =
      db.chat_threads.map (fun x => (x.thread_id, x.chat_name))) ∧
    (∀ (a t' : Str) (n' : Bool),
      (process_message b cfg db u msg (some tid) meta fresh now).1 = .ok (a, t', n') →
      t' = tid ∧ n' = false) := by
  have hres : (get_chat_thread db tid).isSome = true := by
    rw [h]
    rfl
  have hresolve : resolve_thread db (some tid) = some tid := by
    simp [resolve_thread, hres]
  rcases hrag : rag_pipeline b cfg msg (get_history_for_rag db tid 20) with ⟨r, ev2⟩
  cases r with
  | error e =>
    have hpm : process_message b cfg db u msg (some tid) meta fresh now =
        (.error e, (add_message db u tid (str "user") msg meta now).2, ev2) := by
      unfold process_message
      rw [hresolve]
      dsimp only
      rw [hrag]
    rw [hpm]
    refine ⟨add_message_threads_proj db u tid (str "user") msg meta now, ?_⟩
    intro a t' n' hok
    exact absurd hok (by simp)
  | ok pair =>
    rcases pair with ⟨answer, chunks⟩
    have hpm : process_message b cfg db u msg (some tid) meta fresh now =
        (.ok (answer, tid, false),
          (add_message (add_message db u tid (str "user") msg meta now).2
            u tid (str "assistant") answer (some chunks.length) now).2, ev2) := by
      unfold process_message
      rw [hresolve]
      dsimp only
      rw [hrag]
    rw [hpm]
    constructor
    · rw [add_message_threads_proj, add_message_threads_proj]
    · intro a t' n' hok
      simp only [Except.ok.injEq, Prod.mk.injEq] at hok
      exact ⟨hok.2.1.symm, hok.2.2.symm⟩

/-- Witness for C7 at a store holding one existing thread. -/
theorem existing_thread_idempotent_witness :
    ((process_message okBackend wConfig
        (⟨[⟨str "u", str "имя", str "t1", str "local_rag", str "idx", 0, 0⟩], []⟩ : ChatDB)
        (str "u") (str "вопрос") (some (str "t1")) none (str "t9") 7).2.1.chat_threads.map
        (fun x => (x.thread_id, x.chat_name)) =
      ([(⟨str "u", str "имя", str "t1", str "local_rag", str "idx", 0,
        0⟩ : ThreadDoc)]).map (fun x => (x.thread_id, x.chat_name))) ∧
    (∀ (a t' : Str) (n' : Bool),
      (process_message okBackend wConfig
        (⟨[⟨str "u", str "имя", str "t1", str "local_rag", str "idx", 0, 0⟩], []⟩ : ChatDB)
        (str "u") (str "вопрос") (some (str "t1")) none (str "t9") 7).1 =
          .ok (a, t', n') →
      t' = str "t1" ∧ n' = false) :=
  existing_thread_idempotent okBackend wConfig
    (⟨[⟨str "u", str "имя", str "t1", str "local_rag", str "idx", 0, 0⟩], []⟩ : ChatDB)
    (str "u") (str "вопрос") (str "t1") none (str "t9") 7
    (⟨str "u", str "имя", str "t1", str "local_rag", str "idx", 0, 0⟩ : ThreadDoc)
    (by decide)

/-! ## C3: greeting on a fresh thread -/

/-- Appending a message preserves every thread's identifier. -/
theorem add_message_threads_ids (db : ChatDB) (u t r c : Str) (m : Option Nat)
    (now : Nat) :
    ((add_message db u t r c m now).2).chat_threads.map (fun x => x.thread_id) =
      db.chat_threads.map (fun x => x.thread_id) := by
  unfold add_message touch_chat_thread
  dsimp only
  apply updateFirst_map_eq
  intro x
  rfl

/-- Counterexample for C3: processing "привет" as the first message on a
fresh thread does make one backend call — the chat-naming completion
used to name the new thread — so the number of Knowledge Store Client
calls is one, not zero, even though the social path is taken. -/
theorem greeting_makes_naming_call :
    (process_message okBackend wConfig emptyChatDB (str "u") (str "привет") none none
        (str "tid1") 7).1 = .ok (GREETING_TEXT, str "tid1", true) ∧
    (process_message okBackend wConfig emptyChatDB (str "u") (str "привет") none none
        (str "tid1") 7).2.2 = [.namingCall (str "привет")] := by
  decide

/-- C3 (amended): a message matching the greeting vocabulary sent with
no thread identifier takes the social path: the canned greeting text is
returned with `new_chat_created = true` and the fresh thread identifier,
exactly one new thread is created, exactly one user message and one
assistant message (with zero used chunks) are persisted on it, and the
only backend call made is the single chat-naming completion — no
search, relevance, or answer-generation call occurs. -/
theorem greeting_social_path (b : Backend) (cfg : Config) (db : ChatDB)
    (u message fresh : Str) (meta : Option Nat) (now : Nat) (g : Str)
    (hg : get_greeting_response message = some g)
    (hh : thread_history db fresh = []) :
    (process_message b cfg db u message none meta fresh now).1 = .ok (g, fresh, true) ∧
    ((process_message b cfg db u message none meta fresh now).2.1.chat_threads.map
        (fun x => x.thread_id) =
      db.chat_threads.map (fun x => x.thread_id) ++ [fresh]) ∧
    ((get_chat_history (process_message b cfg db u message none meta fresh now).2.1
        fresh).map (fun x => (x.role, x.content, x.meta_chunks_used)) =
      [(str "user", message, meta), (str "assistant", g, some 0)]) ∧
    (process_message b cfg db u message none meta fresh now).2.2 =
      [.namingCall message] := by
  have hrp : rag_pipeline b cfg message [] = (.ok (g, []), []) := by
    unfold rag_pipeline
    rw [hg]
  have hpm : process_message b cfg db u message none meta fresh now =
      (.ok (g, fresh, true),
        (add_message (add_message (create_chat_thread db u fresh (str "local_rag")
            cfg.search_index_id (some (generate_chat_name b message).1) now)
          u fresh (str "user") message meta now).2
          u fresh (str "assistant") g (some 0) now).2,
        (generate_chat_name b message).2 ++ []) := by
    unfold process_message
    dsimp only [resolve_thread]
    rw [hrp]
    rfl
  refine ⟨by rw [hpm], ?_, ?_, ?_⟩
  · rw [hpm]
    dsimp only
    rw [add_message_threads_ids, add_message_threads_ids]
    simp [create_chat_thread]
  · rw [hpm]
    have h1 : thread_history (create_chat_thread db u fresh (str "local_rag")
        cfg.search_index_id (some (generate_chat_name b message).1) now) fresh =
        expected_history u fresh now [] 1 := by
      rw [thread_history_create]
      exact hh
    have h2 := thread_history_add_expected _ u fresh now [] (str "user") message meta h1
    rw [List.nil_append] at h2
    have h3 := thread_history_add_expected _ u fresh now [(str "user", message, meta)]
      (str "assistant") g (some 0) h2
    have hjoin : [(str "user", message, meta)] ++ [(str "assistant", g, some 0)] =
        [(str "user", message, meta), (str "assistant", g, some 0)] := rfl
    rw [hjoin] at h3
    have hread := get_chat_history_of_expected _ u fresh now
      [(str "user", message, meta), (str "assistant", g, some 0)] (by simp) h3
    rw [hread, expected_history_entries]
  · rw [hpm]
    dsimp only
    rw [generate_chat_name_events]
    simp

/-- Witness for C3 (amended) at the concrete greeting "привет" on an
empty store. -/
theorem greeting_social_path_witness :
    (process_message okBackend wConfig emptyChatDB (str "u") (str "привет") none none
        (str "tid9") 7).1 = .ok (GREETING_TEXT, str "tid9", true) ∧
    ((process_message okBackend wConfig emptyChatDB (str "u") (str "привет") none none
        (str "tid9") 7).2.1.chat_threads.map (fun x => x.thread_id) =
      emptyChatDB.chat_threads.map (fun x => x.thread_id) ++ [str "tid9"]) ∧
    ((get_chat_history (process_message okBackend wConfig emptyChatDB (str "u")
        (str "привет") none none (str "tid9") 7).2.1 (str "tid9")).map
        (fun x => (x.role, x.content, x.meta_chunks_used)) =
      [(str "user", str "привет", none), (str "assistant", GREETING_TEXT, some 0)]) ∧
    (process_message okBackend wConfig emptyChatDB (str "u") (str "привет") none none
        (str "tid9") 7).2.2 = [.namingCall (str "привет")] :=
  greeting_social_path okBackend wConfig emptyChatDB (str "u") (str "привет")
    (str "tid9") none 7 GREETING_TEXT (by decide) (by decide)
